import Mathlib

/-!
Verification of the ephemeral preview orchestrator (project-type detection,
Dockerfile synthesis, dynamic port allocation, container lifecycle, cleanup).
The JavaScript source is shallowly embedded: effectful steps (GitHub fetch,
filesystem writes, docker CLI calls, HTTP health probes) are modelled by an
explicit environment record and an explicit world state (running containers,
images, workspace directories), and each exported function is translated as a
pure Lean function over those.
-/

namespace CodePreview

/-- const PORT_RANGE_START = 3001. -/
def PORT_RANGE_START : Nat := 3001

/-- const PORT_RANGE_END = 9000. -/
def PORT_RANGE_END : Nat := 9000

/-- Outcome of one server.listen probe on a port: success, EADDRINUSE, or any
other bind error (for example EACCES on a privileged port). -/
inductive BindResult where
  | ok : BindResult
  | addrInUse : BindResult
  | err : String → BindResult
deriving DecidableEq, Repr

/-- Recursion core of findAvailablePort. The recursion of the source is
guarded by startPort < PORT_RANGE_END; here that guard is carried as the
structural fuel PORT_RANGE_END - startPort, which is positive exactly when
startPort < PORT_RANGE_END and drops by one as startPort rises by one, so the
branch taken at every port is the same as in the source. -/
def findAvailablePortGo (bind : Nat → BindResult) : Nat → Nat → Except String Nat
  | 0, startPort =>
      match bind startPort with
      | BindResult.ok => Except.ok startPort
      | BindResult.err msg => Except.error msg
      | BindResult.addrInUse => Except.error "No available ports in range"
  | fuel + 1, startPort =>
      match bind startPort with
      | BindResult.ok => Except.ok startPort
      | BindResult.err msg => Except.error msg
      | BindResult.addrInUse => findAvailablePortGo bind fuel (startPort + 1)

/-- findAvailablePort: bind a transient socket on startPort; on success return
startPort; on EADDRINUSE retry with startPort+1 while startPort is below
PORT_RANGE_END, otherwise reject with the allocation error; any other bind
error rejects as is. -/
def findAvailablePort (bind : Nat → BindResult) (startPort : Nat) : Except String Nat :=
  findAvailablePortGo bind (PORT_RANGE_END - startPort) startPort

/-- One entry of PROJECT_CONFIGS: Dockerfile template text, build command,
start command, default internal container port, health-check path. -/
structure ProjectConfig where
  dockerfile : String
  buildCommand : String
  startCommand : String
  port : Nat
  healthCheck : String
deriving DecidableEq, Repr

/-- Dockerfile template of the react archetype. -/
def reactDockerfileText : String :=
  "\n# Multi-stage build for Vite + React\nFROM node:20-alpine as builder\nWORKDIR /app\nCOPY package*.json ./\nRUN npm ci && npm cache clean --force\nCOPY . .\nRUN npm run build\n\n# Production stage with Nginx\nFROM nginx:alpine\nCOPY --from=builder /app/dist /usr/share/nginx/html\nEXPOSE 80\nCMD [\"nginx\", \"-g\", \"daemon off;\"]\n        "

/-- Dockerfile template of the nextjs archetype. -/
def nextjsDockerfileText : String :=
  "\n# Multi-stage build for Next.js\nFROM node:20-alpine as builder\nWORKDIR /app\nCOPY package*.json ./\nRUN npm ci && npm cache clean --force\nCOPY . .\nRUN npm run build\n\n# Production stage\nFROM node:20-alpine\nWORKDIR /app\nCOPY --from=builder /app/.next ./.next\nCOPY --from=builder /app/public ./public\nCOPY --from=builder /app/package*.json ./\nRUN npm ci --omit=dev && npm cache clean --force\nEXPOSE 3000\nCMD [\"npm\", \"start\"]\n        "

/-- Dockerfile template of the vue archetype. -/
def vueDockerfileText : String :=
  "\nFROM node:20-alpine\nWORKDIR /app\nCOPY package*.json ./\nRUN npm install\nCOPY . .\nEXPOSE 8080\nCMD [\"npm\", \"run\", \"serve\"]\n        "

/-- Dockerfile template of the nodejs archetype. -/
def nodejsDockerfileText : String :=
  "\nFROM node:20-alpine\nWORKDIR /app\nCOPY package*.json ./\nRUN npm install\nCOPY . .\nEXPOSE 8000\nCMD [\"node\", \"index.js\"]\n        "

/-- Dockerfile template of the python archetype. -/
def pythonDockerfileText : String :=
  "\nFROM python:3.9-slim\nWORKDIR /app\nCOPY requirements.txt ./\nRUN pip install -r requirements.txt\nCOPY . .\nEXPOSE 8000\nCMD [\"python\", \"app.py\"]\n        "

/-- Dockerfile template of the flask archetype. -/
def flaskDockerfileText : String :=
  "\nFROM python:3.9-slim\nWORKDIR /app\nCOPY requirements.txt ./\nRUN pip install -r requirements.txt\nCOPY . .\nEXPOSE 5000\nENV FLASK_APP=app.py\nCMD [\"flask\", \"run\", \"--host=0.0.0.0\"]\n        "

/-- Dockerfile template of the static archetype. -/
def staticDockerfileText : String :=
  "\nFROM nginx:alpine\nCOPY . /usr/share/nginx/html\nEXPOSE 80\nCMD [\"nginx\", \"-g\", \"daemon off;\"]\n        "

/-- PROJECT_CONFIGS: the fixed archetype-to-template table. Lookup of a key
absent from the object literal yields undefined, modelled as none. -/
def PROJECT_CONFIGS : String → Option ProjectConfig
  | "react" => some
      { dockerfile := reactDockerfileText
        buildCommand := "npm ci && npm run build"
        startCommand := "nginx -g \"daemon off;\""
        port := 80
        healthCheck := "/" }
  | "nextjs" => some
      { dockerfile := nextjsDockerfileText
        buildCommand := "npm ci && npm run build"
        startCommand := "npm start"
        port := 3000
        healthCheck := "/" }
  | "vue" => some
      { dockerfile := vueDockerfileText
        buildCommand := "npm install"
        startCommand := "npm run serve"
        port := 8080
        healthCheck := "/" }
  | "nodejs" => some
      { dockerfile := nodejsDockerfileText
        buildCommand := "npm install"
        startCommand := "node index.js"
        port := 8000
        healthCheck := "/health" }
  | "python" => some
      { dockerfile := pythonDockerfileText
        buildCommand := "pip install -r requirements.txt"
        startCommand := "python app.py"
        port := 8000
        healthCheck := "/health" }
  | "flask" => some
      { dockerfile := flaskDockerfileText
        buildCommand := "pip install -r requirements.txt"
        startCommand := "flask run --host=0.0.0.0"
        port := 5000
        healthCheck := "/" }
  | "static" => some
      { dockerfile := staticDockerfileText
        buildCommand := "echo \"Static site - no build needed\""
        startCommand := "nginx -g \"daemon off;\""
        port := 80
        healthCheck := "/" }
  | _ => none

/-- JavaScript String.prototype.trim: drop leading and trailing whitespace.
Implemented on the character list so that it evaluates by kernel
reduction. -/
def jsTrim (s : String) : String :=
  String.mk (((s.data.dropWhile Char.isWhitespace).reverse.dropWhile Char.isWhitespace).reverse)

/-- JavaScript String.prototype.toLowerCase on the character list. -/
def toLowerStr (s : String) : String :=
  String.mk (s.data.map Char.toLower)

/-- JavaScript String.prototype.endsWith on the character list. -/
def endsWithStr (s suffix : String) : Bool :=
  suffix.data.isSuffixOf s.data

/-- JavaScript String.prototype.split with a single-character separator,
on character lists. -/
def splitOnChar (sep : Char) : List Char → List (List Char)
  | [] => [[]]
  | c :: cs =>
      if c = sep then
        [] :: splitOnChar sep cs
      else
        match splitOnChar sep cs with
        | [] => [[c]]
        | g :: gs => (c :: g) :: gs

/-- JavaScript s.split(sep) for a one-character separator string. -/
def splitOnStr (s : String) (sep : Char) : List String :=
  (splitOnChar sep s.data).map String.mk

/-- parseInt on a nonempty run of decimal digits. -/
def digitsToNat (l : List Char) : Nat :=
  l.foldl (fun n c => n * 10 + (c.toNat - 48)) 0

/-- One fetched repository file, as produced by fetchRepositoryFiles:
name (base name), path (repository-relative), textual content. -/
structure RepoFile where
  name : String
  path : String
  content : String
deriving DecidableEq, Repr

/-- A parsed package.json manifest: the dependencies and devDependencies
objects as association lists of (package name, version string). -/
structure PackageJson where
  dependencies : List (String × String)
  devDependencies : List (String × String)
deriving DecidableEq, Repr

/-- Lookup in the spread-merge of dependencies with devDependencies
(devDependencies listed later, so they override). -/
def depLookup (pkg : PackageJson) (key : String) : Option String :=
  match pkg.devDependencies.lookup key with
  | some v => some v
  | none => pkg.dependencies.lookup key

/-- JavaScript truthiness of a dependency access such as dependencies.react:
present with a nonempty version string. -/
def truthyDep (pkg : PackageJson) (key : String) : Bool :=
  match depLookup pkg key with
  | some v => v != ""
  | none => false

/-- JavaScript String.prototype.includes: the pattern occurs as a contiguous
substring. -/
def containsSub (s pat : String) : Bool :=
  decide (pat.data <:+: s.data)

/-- The some-check on vite.config.js / vite.config.ts / vite.config.mjs over
the lowercased file names. -/
def hasViteConfigOf (fileNames : List String) : Bool :=
  fileNames.any fun name =>
    name == "vite.config.js" || name == "vite.config.ts" || name == "vite.config.mjs"

/-- detectProjectType. The parse argument models JSON.parse on the
package.json content: none means the parse threw (caught, with a warning,
falling through to the nodejs default for manifest-bearing repositories). -/
def detectProjectType (parse : String → Option PackageJson) (files : List RepoFile) : String :=
  let fileNames := files.map fun f => toLowerStr f.name
  let hasViteConfig := hasViteConfigOf fileNames
  if fileNames.contains "package.json" then
    match files.find? (fun f => toLowerStr f.name == "package.json") with
    | some packageJsonFile =>
        if packageJsonFile.content != "" then
          match parse packageJsonFile.content with
          | some packageJson =>
              if truthyDep packageJson "next" || truthyDep packageJson "@next/core" then
                "nextjs"
              else if hasViteConfig &&
                  (truthyDep packageJson "react" || truthyDep packageJson "react-dom") then
                "react"
              else if truthyDep packageJson "vite" &&
                  (truthyDep packageJson "react" || truthyDep packageJson "react-dom") then
                "react"
              else if truthyDep packageJson "vue" || truthyDep packageJson "@vue/cli" then
                "vue"
              else if truthyDep packageJson "express" || truthyDep packageJson "fastify" then
                "nodejs"
              else
                "nodejs"
          | none => "nodejs"
        else "nodejs"
    | none => "nodejs"
  else if fileNames.contains "requirements.txt" || fileNames.any (fun f => endsWithStr f ".py") then
    if fileNames.contains "app.py" &&
        (files.find? (fun f => f.name == "app.py" && containsSub f.content "flask")).isSome then
      "flask"
    else
      "python"
  else if fileNames.contains "index.html" then
    "static"
  else
    "static"

/-- Caller-supplied dockerConfig overrides: any subset of the config fields;
absent fields are none. -/
structure CustomConfig where
  dockerfile : Option String := none
  buildCommand : Option String := none
  startCommand : Option String := none
  port : Option Nat := none
  healthCheck : Option String := none
deriving DecidableEq, Repr

/-- Result of the object spread in generateDockerfile. Every field may be
undefined (none) when the archetype is unknown and the override omits it. -/
structure MergedConfig where
  dockerfile : Option String
  buildCommand : Option String
  startCommand : Option String
  port : Option Nat
  healthCheck : Option String
deriving DecidableEq, Repr

/-- The shallow spread-merge of PROJECT_CONFIGS at projectType (possibly
undefined) with the caller overrides; override fields win when present. -/
def mergeConfig (base : Option ProjectConfig) (custom : CustomConfig) : MergedConfig :=
  { dockerfile :=
      match custom.dockerfile with
      | some d => some d
      | none => base.map fun c => c.dockerfile
    buildCommand :=
      match custom.buildCommand with
      | some b => some b
      | none => base.map fun c => c.buildCommand
    startCommand :=
      match custom.startCommand with
      | some sc => some sc
      | none => base.map fun c => c.startCommand
    port :=
      match custom.port with
      | some p => some p
      | none => base.map fun c => c.port
    healthCheck :=
      match custom.healthCheck with
      | some hc => some hc
      | none => base.map fun c => c.healthCheck }

/-- generateDockerfile: merge the archetype template with the overrides and
write config.dockerfile.trim() into the workspace. When the merged config has
no dockerfile (unknown archetype and no override), the .trim() access on
undefined throws a TypeError, modelled as the error case. On success the
returned pair is the merged config and the written Dockerfile text. -/
def generateDockerfile (projectType : String) (customConfig : CustomConfig) :
    Except String (MergedConfig × String) :=
  let config := mergeConfig (PROJECT_CONFIGS projectType) customConfig
  match config.dockerfile with
  | none => Except.error "Cannot read properties of undefined (reading trim)"
  | some d => Except.ok (config, jsTrim d)

/-- JavaScript defaulting x || d on an optionally-undefined number: undefined
and 0 are falsy. -/
def jsOrNat (x : Option Nat) (d : Nat) : Nat :=
  match x with
  | some n => if n = 0 then d else n
  | none => d

/-- JavaScript defaulting x || d on an optionally-undefined string: undefined
and the empty string are falsy. -/
def jsOrStr (x : Option String) (d : String) : String :=
  match x with
  | some s => if s = "" then d else s
  | none => d

/-- Rendering of a possibly-undefined port into a template literal. -/
def portToString (p : Option Nat) : String :=
  match p with
  | some n => toString n
  | none => "undefined"

/-- The resolved value of runDockerContainer: container id (trimmed stdout of
docker run -d), URL on the allocated host port, and that allocated port. -/
structure ContainerInfo where
  containerId : String
  url : String
  port : Nat
deriving DecidableEq, Repr

/-- The observable docker/filesystem state: names of running preview
containers, names of images, and existing workspace directory paths. -/
structure World where
  containers : List String
  images : List String
  dirs : List String
deriving DecidableEq, Repr

/-- Outcomes of the effectful steps of one createProjectPreview call:
generated uuid, process.cwd(), Date.now(), the fetchRepositoryFiles result,
JSON.parse behaviour, workspace-write outcome, docker build outcome,
port-bind probes, docker run outcome, and the per-attempt health responses
(true when that HTTP GET resolved with a 2xx status). -/
structure Env where
  uuid : String
  cwd : String
  now : Nat
  fetchFiles : Except String (List RepoFile)
  parse : String → Option PackageJson
  wsOk : Bool
  wsErr : String
  buildOk : Bool
  buildErr : String
  bind : Nat → BindResult
  runExit : Bool
  runOut : String
  runErr : String
  health : Nat → Bool

/-- runDockerContainer: allocate a host port seeded with defaultPort ||
PORT_RANGE_START, then docker run -d --name containerName -p host:internal
--rm imageName; exit 0 resolves with the container info (registering the
running container), nonzero exit rejects. -/
def runDockerContainer (env : Env) (w : World) (imageName containerName : String)
    (defaultPort : Option Nat) : Except String ContainerInfo × World :=
  match findAvailablePort env.bind (jsOrNat defaultPort PORT_RANGE_START) with
  | Except.error e => (Except.error e, w)
  | Except.ok availablePort =>
      if env.runExit then
        (Except.ok
          { containerId := jsTrim env.runOut
            url := "http://localhost:" ++ toString availablePort
            port := availablePort },
         { w with containers := containerName :: w.containers })
      else
        (Except.error ("Container start failed: " ++ env.runErr), w)
  -- the imageName argument is only forwarded to the docker CLI
  -- (silences no warning: imageName is used in the real command line)

/-- One health-poll pass: attempt index i, remaining attempts as fuel; every
attempt issues a GET on the same URL; the first 2xx response stops the loop.
Returns the final healthy flag and the list of URLs that were requested. -/
def checkHealthLoop (health : Nat → Bool) (url : String) : Nat → Nat → Bool × List String
  | _, 0 => (false, [])
  | i, fuel + 1 =>
      if health i then
        (true, [url])
      else
        let rest := checkHealthLoop health url (i + 1) fuel
        (rest.1, url :: rest.2)

/-- checkContainerHealth: maxRetries = 30, fixed retryDelay, GET
http://localhost:<port><healthPath> each attempt; healthy on the first ok
response, unhealthy after exhausting the attempts. -/
def checkContainerHealth (health : Nat → Bool) (containerId : String)
    (port : Option Nat) (healthPath : String) : Bool × List String :=
  checkHealthLoop health ("http://localhost:" ++ portToString port ++ healthPath) 0 30

/-- Resolved value of stopPreview. -/
structure StopResult where
  success : Bool
  message : String
deriving DecidableEq, Repr

/-- stopPreview: execSync docker stop, execSync docker rmi, then fs.rm of the
workspace. execSync throws when the command exits nonzero even under
stdio ignore, and docker stop / docker rmi exit nonzero when the container /
image is absent; fs.rm with recursive and force never throws on a missing
directory. Any throw is rewrapped as a Failed-to-stop-preview error, skipping
the remaining steps. -/
def stopPreview (cwd : String) (w : World) (projectId : String) :
    Except String StopResult × World :=
  let containerName := "preview-" ++ projectId
  if w.containers.contains containerName then
    let w1 : World := { w with containers := w.containers.erase containerName }
    if w1.images.contains ("preview-" ++ projectId) then
      let w2 : World := { w1 with images := w1.images.erase ("preview-" ++ projectId) }
      let workspaceDir := cwd ++ "/previews/" ++ projectId
      let w3 : World := { w2 with dirs := w2.dirs.erase workspaceDir }
      (Except.ok { success := true, message := "Preview stopped and cleaned up" }, w3)
    else
      (Except.error ("Failed to stop preview: Command failed: docker rmi preview-"
        ++ projectId), w1)
  else
    (Except.error ("Failed to stop preview: Command failed: docker stop "
      ++ containerName), w)

/-- Replace the first occurrence of pat by rep in a character list, as
JavaScript String.prototype.replace with a string pattern does. -/
def replaceFirstList (pat rep : List Char) : List Char → List Char
  | [] => []
  | c :: cs =>
      if pat.isPrefixOf (c :: cs) then
        rep ++ (c :: cs).drop pat.length
      else
        c :: replaceFirstList pat rep cs

/-- JavaScript s.replace(pat, rep) with a string pattern: only the first
occurrence is replaced. -/
def replaceFirst (s pat rep : String) : String :=
  String.mk (replaceFirstList pat.data rep.data s.data)

/-- Resolved value of stopAllPreviews. -/
structure StopAllResult where
  success : Bool
  message : String
  stopped : List String
deriving DecidableEq, Repr

/-- The per-container loop of stopAllPreviews: docker stop the name, recover
projectId by stripping the preview- prefix, docker rmi preview-projectId,
and record the projectId; a throw from stop or rmi is caught and logged,
skipping the push for that container. -/
def stopAllLoop (w : World) : List String → List String → List String × World
  | [], stopped => (stopped, w)
  | containerName :: rest, stopped =>
      if w.containers.contains containerName then
        let w1 : World := { w with containers := w.containers.erase containerName }
        let projectId := replaceFirst containerName "preview-" ""
        if w1.images.contains ("preview-" ++ projectId) then
          let w2 : World := { w1 with images := w1.images.erase ("preview-" ++ projectId) }
          stopAllLoop w2 rest (stopped ++ [projectId])
        else
          stopAllLoop w1 rest stopped
      else
        stopAllLoop w rest stopped

/-- stopAllPreviews: list containers whose name carries the preview- filter
(docker name filters match substrings), stop each and remove its image,
collecting the recovered project ids. -/
def stopAllPreviews (w : World) : Except String StopAllResult × World :=
  let containerNames := w.containers.filter fun n => containsSub n "preview-"
  let r := stopAllLoop w containerNames []
  (Except.ok
    { success := true
      message := "Stopped " ++ toString r.1.length ++ " preview containers"
      stopped := r.1 }, r.2)

/-- The regex match on a docker Ports column: the first colon followed by one
or more digits followed by an arrow, returning the digit run. -/
def portMatchAux : List Char → Option String
  | [] => none
  | c :: rest =>
      if c = ':' then
        let digits := rest.takeWhile fun d => d.isDigit
        if digits ≠ [] && ['-', '>'].isPrefixOf (rest.drop digits.length) then
          some (String.mk digits)
        else
          portMatchAux rest
      else
        portMatchAux rest

/-- ports.match of the host-port regex, as used by listActivePreviews. -/
def portMatch (ports : String) : Option String :=
  portMatchAux ports.data

/-- One entry of the previews array returned by listActivePreviews. The port
field is none when the regex found no host port (parseInt of the literal
unknown is NaN); status is none when the line had no third column. -/
structure PreviewRow where
  projectId : String
  containerName : String
  port : Option Nat
  url : String
  status : Option String
  previewUrl : String
deriving DecidableEq, Repr

/-- Mapper for one tab-separated line of the docker ps output (only applied
to lines that do have a Ports column). -/
def parsePreviewLine (line : String) : PreviewRow :=
  let parts := splitOnStr line (Char.ofNat 9)
  let name := parts.headD ""
  let ports := (parts.drop 1).headD ""
  let status := (parts.drop 2).head?
  let projectId := replaceFirst name "preview-" ""
  let portDigits := portMatch ports
  let portStr :=
    match portDigits with
    | some ds => ds
    | none => "unknown"
  { projectId := projectId
    containerName := name
    port := portDigits.map fun ds => digitsToNat ds.data
    url := "http://localhost:" ++ portStr
    status := status
    previewUrl := "http://localhost:" ++ portStr }

/-- The object returned by listActivePreviews. count and error are optional
because each appears in only one of the two shapes. -/
structure ListResult where
  success : Bool
  previews : List PreviewRow
  count : Option Nat
  error : Option String
deriving DecidableEq, Repr

/-- listActivePreviews over the outcome of the docker ps query (error when
execSync threw, otherwise the raw tab-separated output). Everything inside
the try block that throws - including the TypeError raised by ports.match
when a line has no Ports column - is caught and turned into the failure
shape, whose previews list is empty and whose count field is absent. -/
def listActivePreviews (raw : Except String String) : ListResult :=
  match raw with
  | Except.error e =>
      { success := false, previews := [], count := none, error := some e }
  | Except.ok out =>
      let lines := (splitOnStr (jsTrim out) (Char.ofNat 10)).filter fun l => jsTrim l != ""
      if lines.all fun l => 2 ≤ (splitOnStr l (Char.ofNat 9)).length then
        let previews := lines.map parsePreviewLine
        { success := true, previews := previews, count := some previews.length, error := none }
      else
        { success := false, previews := [], count := none
          error := some "Cannot read properties of undefined (reading match)" }

/-- JavaScript path.extname on a bare file name: the suffix that starts at
the last dot, empty when there is no dot or the only dot is leading. -/
def lastDotSuffix : List Char → Option (List Char)
  | [] => none
  | c :: cs =>
      match lastDotSuffix cs with
      | some r => some r
      | none => if c = '.' then some (c :: cs) else none

/-- path.extname of a file name. -/
def extname (s : String) : String :=
  match s.data with
  | [] => ""
  | _ :: cs =>
      match lastDotSuffix cs with
      | some r => String.mk r
      | none => ""

/-- Spread of a Set built from a list: deduplication keeping first
occurrences in order. -/
def dedupList (l : List String) : List String :=
  l.foldl (fun acc x => if acc.contains x then acc else acc ++ [x]) []

/-- The preview sub-object of a successful createProjectPreview result. The
port is the (possibly undefined) config.port of the merged configuration,
exactly as the code assembles it. -/
structure PreviewInfo where
  url : String
  port : Option Nat
  containerId : String
  containerName : String
  healthy : Bool
deriving DecidableEq, Repr

/-- The files summary of a successful result. -/
structure FilesSummary where
  count : Nat
  types : List String
deriving DecidableEq, Repr

/-- A successful createProjectPreview result. createdAt and expiresAt are
kept as millisecond timestamps. -/
structure PreviewResult where
  success : Bool
  projectId : String
  owner : String
  repo : String
  projectType : String
  preview : PreviewInfo
  files : FilesSummary
  workspace : String
  createdAt : Nat
  expiresAt : Nat
  warning : Option String
deriving DecidableEq, Repr

/-- The caller options of createProjectPreview. -/
structure Options where
  projectType : Option String := none
  dockerConfig : CustomConfig := {}
deriving DecidableEq, Repr

/-- Everything observable about one createProjectPreview call: its resolved
or rejected value, the final docker/filesystem world, and the URLs of the
health-check GET requests that were issued. -/
structure PreviewOutcome where
  result : Except String PreviewResult
  world : World
  healthTrace : List String
deriving Repr

/-- The catch block of createProjectPreview: attempt stopPreview for the
partially created preview, swallow its own failure, and reject with the
Preview-creation-failed wrapper. -/
def cleanupAndFail (cwd : String) (w : World) (projectId msg : String) : PreviewOutcome :=
  let r := stopPreview cwd w projectId
  { result := Except.error ("Preview creation failed: " ++ msg)
    world := r.2
    healthTrace := [] }

/-- createProjectPreview: fetch files, detect or accept the project type,
materialize the workspace under previews/projectId, synthesize the
Dockerfile, build the image, run the container on an allocated host port,
health-poll, and assemble the result. projectId is the first 8 characters of
a fresh uuid; image and container are both named preview-projectId. Note
that the health check and the returned preview url and port use config.port
(the internal port of the merged configuration), not the allocated host port
carried in the run-phase result. -/
def createProjectPreview (env : Env) (w : World) (owner repo : String)
    (options : Options) : PreviewOutcome :=
  let projectId := env.uuid.take 8
  let imageName := "preview-" ++ projectId
  let containerName := "preview-" ++ projectId
  match env.fetchFiles with
  | Except.error e => cleanupAndFail env.cwd w projectId e
  | Except.ok files =>
      let projectType := jsOrStr options.projectType (detectProjectType env.parse files)
      if env.wsOk then
        let workspaceDir := env.cwd ++ "/previews/" ++ projectId
        let w1 : World := { w with dirs := workspaceDir :: w.dirs }
        match generateDockerfile projectType options.dockerConfig with
        | Except.error e => cleanupAndFail env.cwd w1 projectId e
        | Except.ok config =>
            if env.buildOk then
              let w2 : World := { w1 with images := imageName :: w1.images }
              match runDockerContainer env w2 imageName containerName config.1.port with
              | (Except.error e, w3) => cleanupAndFail env.cwd w3 projectId e
              | (Except.ok containerInfo, w3) =>
                  let healthCheck :=
                    checkContainerHealth env.health containerInfo.containerId
                      config.1.port (config.1.healthCheck.getD "/")
                  let result : PreviewResult :=
                    { success := true
                      projectId := projectId
                      owner := owner
                      repo := repo
                      projectType := projectType
                      preview :=
                        { url := "http://localhost:" ++ portToString config.1.port
                          port := config.1.port
                          containerId := containerInfo.containerId
                          containerName := containerName
                          healthy := healthCheck.1 }
                      files :=
                        { count := files.length
                          types := (dedupList (files.map fun f => extname f.name)).filter
                            fun t => t != "" }
                      workspace := workspaceDir
                      createdAt := env.now
                      expiresAt := env.now + 2 * 60 * 60 * 1000
                      warning :=
                        if healthCheck.1 then none
                        else some
                          "Container started but health check failed. Preview might not be ready yet." }
                  { result := Except.ok result, world := w3, healthTrace := healthCheck.2 }
            else
              cleanupAndFail env.cwd w1 projectId ("Docker build failed: " ++ env.buildErr)
      else
        cleanupAndFail env.cwd w projectId ("Failed to create workspace: " ++ env.wsErr)

/-! Concrete environments used by the closed theorems and witnesses. -/

/-- A host on which only port 80 is already bound. -/
def bindBusy80 : Nat → BindResult :=
  fun n => if n == 80 then BindResult.addrInUse else BindResult.ok

/-- A host on which every probed port binds successfully. -/
def bindAllFree : Nat → BindResult := fun _ => BindResult.ok

/-- The empty docker/filesystem world. -/
def worldEmpty : World := { containers := [], images := [], dirs := [] }

/-- A run in which the repository fetch yields no files, the workspace write
and the docker build and run succeed, host port 80 is busy, and the first
health probe answers 2xx. -/
def env12 : Env :=
  { uuid := "abc12345-0000-4000-8000-000000000000"
    cwd := "/srv"
    now := 1000
    fetchFiles := Except.ok []
    parse := fun _ => none
    wsOk := true
    wsErr := ""
    buildOk := true
    buildErr := ""
    bind := bindBusy80
    runExit := true
    runOut := "deadbeefcafe\n"
    runErr := ""
    health := fun i => i == 0 }

/-- Caller options forcing the react archetype. -/
def options12 : Options := { projectType := some "react" }

/-- The successful result of createProjectPreview under env12. -/
def resC2 : PreviewResult :=
  { success := true
    projectId := "abc12345"
    owner := "facebook"
    repo := "react"
    projectType := "react"
    preview :=
      { url := "http://localhost:80"
        port := some 80
        containerId := "deadbeefcafe"
        containerName := "preview-abc12345"
        healthy := true }
    files := { count := 0, types := [] }
    workspace := "/srv/previews/abc12345"
    createdAt := 1000
    expiresAt := 7201000
    warning := none }

/-- env12 with a failing docker build. -/
def env3 : Env := { env12 with buildOk := false, buildErr := "docker build exited with code 1" }

/-- The world right after a preview abc12345 was created. -/
def w4 : World :=
  { containers := ["preview-abc12345"]
    images := ["preview-abc12345"]
    dirs := ["/srv/previews/abc12345"] }

/-- Dependencies containing the scoped package of the nextjs check together
with react and vue. -/
def pkg7 : PackageJson :=
  { dependencies := [("@next/core", "1.0.0"), ("react", "18.2.0"), ("vue", "3.0.0")]
    devDependencies := [] }

/-- JSON.parse behaviour matching files7. -/
def parse7 : String → Option PackageJson :=
  fun c => if c == "pkg-c7" then some pkg7 else none

/-- A manifest-bearing file list with a Vite configuration file. -/
def files7 : List RepoFile :=
  [ { name := "package.json", path := "package.json", content := "pkg-c7" },
    { name := "vite.config.js", path := "vite.config.js", content := "export default" } ]

/-- Dependencies with react and vue, without next and without the scoped
nextjs package. -/
def pkg8 : PackageJson :=
  { dependencies := [("react", "18.2.0"), ("vue", "3.0.0")]
    devDependencies := [] }

/-- JSON.parse behaviour matching files8. -/
def parse8 : String → Option PackageJson :=
  fun c => if c == "pkg-c8" then some pkg8 else none

/-- A manifest-bearing file list with a Vite configuration file for the
amended-detection witness. -/
def files8 : List RepoFile :=
  [ { name := "package.json", path := "package.json", content := "pkg-c8" },
    { name := "vite.config.js", path := "vite.config.js", content := "export default" } ]

/-- A run of the static archetype on a free host in which no health probe
ever answers 2xx. -/
def env8 : Env :=
  { env12 with bind := bindAllFree, health := fun _ => false }

/-- Caller options forcing the static archetype. -/
def options8 : Options := { projectType := some "static" }

/-! Helper lemmas. -/

/-- A successful port allocation of the recursion core returns a port whose
bind probe succeeded, at or above the seed and at most fuel above it. -/
theorem findAvailablePortGo_ok_inv (bind : Nat → BindResult) :
    ∀ fuel startPort p, findAvailablePortGo bind fuel startPort = Except.ok p →
      bind p = BindResult.ok ∧ startPort ≤ p ∧ p ≤ startPort + fuel := by
  intro fuel
  induction fuel with
  | zero =>
      intro startPort p h
      simp only [findAvailablePortGo] at h
      cases hb : bind startPort with
      | ok =>
          rw [hb] at h
          simp at h
          subst h
          exact ⟨hb, Nat.le_refl _, by omega⟩
      | addrInUse =>
          rw [hb] at h
          simp at h
      | err m =>
          rw [hb] at h
          simp at h
  | succ fuel ih =>
      intro startPort p h
      simp only [findAvailablePortGo] at h
      cases hb : bind startPort with
      | ok =>
          rw [hb] at h
          simp at h
          subst h
          exact ⟨hb, Nat.le_refl _, by omega⟩
      | addrInUse =>
          rw [hb] at h
          obtain ⟨h1, h2, h3⟩ := ih (startPort + 1) p h
          exact ⟨h1, by omega, by omega⟩
      | err m =>
          rw [hb] at h
          simp at h

/-- When no attempt in the window answers 2xx, the health loop reports
unhealthy after requesting the URL once per attempt. -/
theorem checkHealthLoop_never_ok (health : Nat → Bool) (url : String) :
    ∀ fuel i, (∀ j, j < i + fuel → health j = false) →
      checkHealthLoop health url i fuel = (false, List.replicate fuel url) := by
  intro fuel
  induction fuel with
  | zero => intro i _; rfl
  | succ fuel ih =>
      intro i h
      have hrest := ih (i + 1) fun j hj => h j (by omega)
      simp [checkHealthLoop, h i (by omega), hrest, List.replicate_succ]

/-- Stripping the preview- prefix recovers the project id from a container
name built by createProjectPreview. -/
theorem replaceFirst_preview_prefix (id : String) :
    replaceFirst ("preview-" ++ id) "preview-" "" = id := by
  cases id with
  | mk data => simp [replaceFirst, String.data_append, replaceFirstList]

/-- Container names built by createProjectPreview match the preview- name
filter of the docker listing. -/
theorem containsSub_preview_prefix (s : String) :
    containsSub ("preview-" ++ s) "preview-" = true := by
  simp only [containsSub, String.data_append, decide_eq_true_eq]
  exact (List.prefix_append _ _).isInfix

/-- PROJECT_CONFIGS has no entry for a tag outside the fixed enumeration. -/
theorem PROJECT_CONFIGS_eq_none (t : String)
    (h : t ∉ ["react", "nextjs", "vue", "nodejs", "python", "flask", "static"]) :
    PROJECT_CONFIGS t = none := by
  simp only [List.mem_cons, List.not_mem_nil, or_false, not_or] at h
  unfold PROJECT_CONFIGS
  split <;> simp_all

/-- The per-container loop of stopAllPreviews, on a world populated exactly
with preview-named containers and their images, stops and removes every one
of them and recovers the project ids in order. -/
theorem stopAllLoop_map (ds : List String) :
    ∀ ids acc : List String,
      stopAllLoop
        { containers := ids.map fun i => "preview-" ++ i
          images := ids.map fun i => "preview-" ++ i
          dirs := ds }
        (ids.map fun i => "preview-" ++ i) acc
      = (acc ++ ids, { containers := [], images := [], dirs := ds }) := by
  intro ids
  induction ids with
  | nil => intro acc; simp [stopAllLoop]
  | cons i rest ih =>
      intro acc
      simp only [List.map_cons, stopAllLoop, List.contains_cons, BEq.refl, Bool.true_or,
        if_true, List.erase_cons_head, replaceFirst_preview_prefix]
      have hstep := ih (acc ++ [i])
      simp only [List.append_assoc, List.singleton_append] at hstep
      simpa using hstep

/-- A tab-separated docker ps line with three columns is mapped to a row
whose containerName is the first column and whose projectId strips the
preview- prefix from it. -/
theorem parsePreviewLine_fields (line name ports status : String)
    (h : splitOnStr line (Char.ofNat 9) = [name, ports, status]) :
    (parsePreviewLine line).projectId = replaceFirst name "preview-" ""
    ∧ (parsePreviewLine line).containerName = name := by
  simp [parsePreviewLine, h]

/-- Every successful createProjectPreview call names its result, its running
container and its image with the preview- prefix on the first 8 characters of
the fresh uuid. -/
theorem createProjectPreview_names (env : Env) (w : World) (owner repo : String)
    (options : Options) (res : PreviewResult)
    (h : (createProjectPreview env w owner repo options).result = Except.ok res) :
    res.projectId = env.uuid.take 8
    ∧ res.preview.containerName = "preview-" ++ env.uuid.take 8
    ∧ ("preview-" ++ env.uuid.take 8)
        ∈ (createProjectPreview env w owner repo options).world.containers
    ∧ ("preview-" ++ env.uuid.take 8)
        ∈ (createProjectPreview env w owner repo options).world.images := by
  unfold createProjectPreview at h ⊢
  dsimp only at h
  split at h
  · simp [cleanupAndFail] at h
  · rename_i files hfetch
    split at h
    · rename_i hws
      split at h
      · simp [cleanupAndFail] at h
      · rename_i config hgen
        split at h
        · rename_i hbuild
          split at h
          · simp [cleanupAndFail] at h
          · rename_i ci w3 hrun
            dsimp only at h
            injection h with h
            subst h
            unfold runDockerContainer at hrun
            split at hrun
            · simp at hrun
            · rename_i port hfap
              split at hrun
              · rename_i hexit
                simp only [Prod.mk.injEq, Except.ok.injEq] at hrun
                obtain ⟨hci, hw3⟩ := hrun
                subst hw3
                simp [hfetch, hws, hgen, hbuild, runDockerContainer, hfap, hexit, List.mem_cons]
              · simp at hrun
        · simp [cleanupAndFail] at h
    · simp [cleanupAndFail] at h

/-- stopPreview resolves exactly when both the container and the image named
by the preview- prefix on the given id exist; it consults nothing else. -/
theorem stopPreview_ok_iff (cwd : String) (w : World) (id : String) :
    ((stopPreview cwd w id).1
      = Except.ok { success := true, message := "Preview stopped and cleaned up" })
    ↔ (w.containers.contains ("preview-" ++ id) = true
       ∧ w.images.contains ("preview-" ++ id) = true) := by
  unfold stopPreview
  by_cases hc : ("preview-" ++ id) ∈ w.containers
  · by_cases hi : ("preview-" ++ id) ∈ w.images
    · simp [hc, hi]
    · simp [hc, hi]
  · simp [hc]

/-! Claim theorems. -/

/-- C1: the spec requires every health-check GET to target
http://localhost:<allocated host port><healthCheckPath>. The code instead
passes config.port - the container-internal port of the merged configuration -
to checkContainerHealth. Concretely: under env12 the react archetype has
internal port 80, host port 80 is busy so the run phase allocates host port
81, and yet the health GET is issued against http://localhost:80/. -/
theorem claim1_health_get_uses_internal_port :
    findAvailablePort env12.bind
      (jsOrNat (mergeConfig (PROJECT_CONFIGS "react") {}).port PORT_RANGE_START) = Except.ok 81
    ∧ (createProjectPreview env12 worldEmpty "facebook" "react" options12).healthTrace
      = ["http://localhost:80/"]
    ∧ ("http://localhost:80/" : String) ≠ "http://localhost:81/" :=
  ⟨rfl, rfl, by decide⟩

/-- C2: the spec requires preview.port and preview.url of a successful result
to carry the allocated host port of the run phase. The code builds both from
config.port: under env12 the run phase allocates host port 81 (and returns it
in its result), but the returned preview carries port 80 and url
http://localhost:80. -/
theorem claim2_preview_port_is_internal_port :
    (createProjectPreview env12 worldEmpty "facebook" "react" options12).result = Except.ok resC2
    ∧ resC2.preview.port = some 80
    ∧ resC2.preview.url = "http://localhost:80"
    ∧ (runDockerContainer env12
        { containers := [], images := ["preview-abc12345"], dirs := ["/srv/previews/abc12345"] }
        "preview-abc12345" "preview-abc12345" (some 80)).1
      = Except.ok { containerId := "deadbeefcafe", url := "http://localhost:81", port := 81 }
    ∧ resC2.preview.port ≠ some 81 :=
  ⟨rfl, rfl, rfl, rfl, by decide⟩

/-- C3: the spec requires the workspace directory previews/<projectId> to be
removed before createProjectPreview rejects after a build or run failure. In
the code the cleanup path calls stopPreview, whose docker stop of the absent
container throws before fs.rm runs: under env3 (docker build fails, container
never created) the call rejects while the workspace directory is still
present in the final world. -/
theorem claim3_workspace_survives_build_failure :
    (createProjectPreview env3 worldEmpty "facebook" "react" options12).result
      = Except.error "Preview creation failed: Docker build failed: docker build exited with code 1"
    ∧ (createProjectPreview env3 worldEmpty "facebook" "react" options12).world.dirs
      = ["/srv/previews/abc12345"] :=
  ⟨rfl, rfl⟩

/-- C4: the spec requires a second stopPreview on the same identifier to
resolve (absence treated as success). In the code execSync throws on the
nonzero exit of docker stop for the absent container even under stdio
ignore: after a first successful stop of preview abc12345, the second call
rejects. -/
theorem claim4_second_stopPreview_throws :
    (stopPreview "/srv" w4 "abc12345").1
      = Except.ok { success := true, message := "Preview stopped and cleaned up" }
    ∧ (stopPreview "/srv" (stopPreview "/srv" w4 "abc12345").2 "abc12345").1
      = Except.error "Failed to stop preview: Command failed: docker stop preview-abc12345" :=
  ⟨rfl, rfl⟩

/-- C5 counterexample: seeded with 3000 - the nextjs default internal port
that the run phase passes - on a host where 3000 is unbound,
findAvailablePort returns 3000, a port outside [PORT_RANGE_START,
PORT_RANGE_END], refuting the claim that the result never leaves that
range. -/
theorem claim5_counterexample :
    findAvailablePort bindAllFree 3000 = Except.ok 3000 ∧ ¬PORT_RANGE_START ≤ 3000 :=
  ⟨rfl, by decide⟩

/-- C5 (amended): every successful allocation returns a port whose bind probe
succeeded at the instant of allocation, no smaller than the seed and no
larger than max(seed, PORT_RANGE_END); the [3001, 9000] range is guaranteed
only when the seed itself lies in it, and a free seed below the range (such
as the archetype defaults 80, 3000, 5000) is returned as is. Exhausting the
range rejects with the allocation error. -/
theorem claim5_allocation_range (bind : Nat → BindResult) (startPort p : Nat)
    (h : findAvailablePort bind startPort = Except.ok p) :
    bind p = BindResult.ok ∧ startPort ≤ p ∧ p ≤ max startPort PORT_RANGE_END := by
  obtain ⟨h1, h2, h3⟩ := findAvailablePortGo_ok_inv bind (PORT_RANGE_END - startPort) startPort p h
  exact ⟨h1, h2, by omega⟩

/-- Witness for the amended C5 at seed 3001 on a free host. -/
theorem claim5_allocation_range_witness :
    bindAllFree 3001 = BindResult.ok ∧ 3001 ≤ 3001 ∧ 3001 ≤ max 3001 PORT_RANGE_END :=
  claim5_allocation_range bindAllFree 3001 3001 rfl

/-- C6: for every archetype tag outside the fixed enumeration,
generateDockerfile with no override fails (the trim access on the undefined
template throws) and no default template is silently substituted. -/
theorem claim6_unknown_type_fails (t : String)
    (h : t ∉ ["react", "nextjs", "vue", "nodejs", "python", "flask", "static"]) :
    generateDockerfile t {} = Except.error "Cannot read properties of undefined (reading trim)" := by
  simp [generateDockerfile, mergeConfig, PROJECT_CONFIGS_eq_none t h]

/-- Witness for C6 at the unknown tag angular. -/
theorem claim6_unknown_type_fails_witness :
    generateDockerfile "angular" {}
      = Except.error "Cannot read properties of undefined (reading trim)" :=
  claim6_unknown_type_fails "angular" (by decide)

/-- C7 counterexample: a file list with a Vite config whose dependencies are
@next/core, react and vue - so react is present, next is not - makes
detectProjectType return nextjs, not react as the claim demands, because the
@next/core check precedes the Vite-react check. -/
theorem claim7_counterexample :
    truthyDep pkg7 "next" = false
    ∧ (truthyDep pkg7 "react" || truthyDep pkg7 "react-dom") = true
    ∧ truthyDep pkg7 "vue" = true
    ∧ hasViteConfigOf (files7.map fun f => toLowerStr f.name) = true
    ∧ detectProjectType parse7 files7 = "nextjs"
    ∧ ("nextjs" : String) ≠ "react" :=
  ⟨rfl, rfl, rfl, rfl, rfl, by decide⟩

/-- C7 (amended): for every file list containing a package.json whose
dependency set includes react or react-dom, together with a Vite
configuration file, and whose dependencies include neither next nor
@next/core, detectProjectType returns react, even when vue is also
present. -/
theorem claim7_vite_react_precedence (parse : String → Option PackageJson)
    (files : List RepoFile) (pj : RepoFile) (pkg : PackageJson)
    (hfind : files.find? (fun f => toLowerStr f.name == "package.json") = some pj)
    (hcontent : pj.content ≠ "")
    (hparse : parse pj.content = some pkg)
    (hvite : hasViteConfigOf (files.map fun f => toLowerStr f.name) = true)
    (hreact : (truthyDep pkg "react" || truthyDep pkg "react-dom") = true)
    (hnext : truthyDep pkg "next" = false)
    (hcore : truthyDep pkg "@next/core" = false) :
    detectProjectType parse files = "react" := by
  have hp := List.find?_some hfind
  have hpj : toLowerStr pj.name = "package.json" := by simpa using hp
  have hmem : pj ∈ files := List.mem_of_find?_eq_some hfind
  have hmem2 : "package.json" ∈ files.map fun f => toLowerStr f.name := by
    rw [← hpj]
    exact List.mem_map_of_mem _ hmem
  simp [detectProjectType, hmem2, hfind, hparse, hnext, hcore, hvite, hreact, hcontent]

/-- Witness for the amended C7: react and vue dependencies with a Vite
config resolve to react. -/
theorem claim7_vite_react_precedence_witness : detectProjectType parse8 files8 = "react" :=
  claim7_vite_react_precedence parse8 files8
    { name := "package.json", path := "package.json", content := "pkg-c8" } pkg8
    rfl (by decide) rfl rfl rfl rfl rfl

/-- C8: whenever the run phase succeeds and no health attempt in the
30-attempt window gets a 2xx response, createProjectPreview resolves with a
populated success result whose preview.healthy is false (and a warning), and
does not reject. -/
theorem claim8_unhealthy_still_resolves (env : Env) (w : World) (owner repo : String)
    (options : Options) (files : List RepoFile) (config : MergedConfig × String) (p : Nat)
    (hfetch : env.fetchFiles = Except.ok files)
    (hws : env.wsOk = true)
    (hgen : generateDockerfile (jsOrStr options.projectType (detectProjectType env.parse files))
      options.dockerConfig = Except.ok config)
    (hbuild : env.buildOk = true)
    (hfap : findAvailablePort env.bind (jsOrNat config.1.port PORT_RANGE_START) = Except.ok p)
    (hexit : env.runExit = true)
    (hhealth : ∀ i, i < 30 → env.health i = false) :
    ∃ res, (createProjectPreview env w owner repo options).result = Except.ok res
      ∧ res.success = true ∧ res.preview.healthy = false ∧ res.warning ≠ none := by
  have hloop := checkHealthLoop_never_ok env.health
    ("http://localhost:" ++ portToString config.1.port ++ config.1.healthCheck.getD "/") 30 0
    (fun j hj => hhealth j (by omega))
  refine ⟨{ success := true
            projectId := env.uuid.take 8
            owner := owner
            repo := repo
            projectType := jsOrStr options.projectType (detectProjectType env.parse files)
            preview :=
              { url := "http://localhost:" ++ portToString config.1.port
                port := config.1.port
                containerId := jsTrim env.runOut
                containerName := "preview-" ++ env.uuid.take 8
                healthy := false }
            files :=
              { count := files.length
                types := (dedupList (files.map fun f => extname f.name)).filter fun t => t != "" }
            workspace := env.cwd ++ "/previews/" ++ env.uuid.take 8
            createdAt := env.now
            expiresAt := env.now + 2 * 60 * 60 * 1000
            warning := some "Container started but health check failed. Preview might not be ready yet." },
    ?_, rfl, rfl, by simp⟩
  simp [createProjectPreview, hfetch, hws, hgen, hbuild, runDockerContainer, hfap, hexit,
    checkContainerHealth, hloop]


/-- Witness for C8: a static-archetype run on a free host whose container
never answers the probe resolves successfully with healthy false. -/
theorem claim8_unhealthy_still_resolves_witness :
    ∃ res, (createProjectPreview env8 worldEmpty "octocat" "hello-world" options8).result
        = Except.ok res
      ∧ res.success = true ∧ res.preview.healthy = false ∧ res.warning ≠ none :=
  claim8_unhealthy_still_resolves env8 worldEmpty "octocat" "hello-world" options8 []
    (mergeConfig (PROJECT_CONFIGS "static") {}, jsTrim staticDockerfileText) 80
    rfl rfl rfl rfl rfl rfl (fun _ _ => rfl)

/-- C9: listActivePreviews never rejects: a failing container-runtime query
resolves to the failure shape success false, the error message, an empty
previews list, and no count field. -/
theorem claim9_list_failure_shape (e : String) :
    listActivePreviews (Except.error e)
      = { success := false, previews := [], count := none, error := some e } :=
  rfl

/-- C10: every preview created by createProjectPreview names both its image
and its container preview- ++ the first 8 characters of the fresh uuid;
stopPreview succeeds exactly on the container and image carrying that
prefixed name; stripping the preview- prefix recovers the project id;
created names match the preview- name filter; stopAllPreviews, fed by the
name-filtered listing of a world of created previews, stops them all and
recovers exactly their ids; and listActivePreviews recovers each row id by
stripping the prefix from the listed container name. -/
theorem claim10_preview_name_registry :
    (∀ env w owner repo options res,
      (createProjectPreview env w owner repo options).result = Except.ok res →
      res.projectId = env.uuid.take 8
      ∧ res.preview.containerName = "preview-" ++ env.uuid.take 8
      ∧ ("preview-" ++ env.uuid.take 8)
          ∈ (createProjectPreview env w owner repo options).world.containers
      ∧ ("preview-" ++ env.uuid.take 8)
          ∈ (createProjectPreview env w owner repo options).world.images)
    ∧ (∀ cwd w id, ((stopPreview cwd w id).1
        = Except.ok { success := true, message := "Preview stopped and cleaned up" })
        ↔ (w.containers.contains ("preview-" ++ id) = true
           ∧ w.images.contains ("preview-" ++ id) = true))
    ∧ (∀ id, replaceFirst ("preview-" ++ id) "preview-" "" = id)
    ∧ (∀ s, containsSub ("preview-" ++ s) "preview-" = true)
    ∧ (∀ ids ds : List String,
        stopAllPreviews
          { containers := ids.map fun i => "preview-" ++ i
            images := ids.map fun i => "preview-" ++ i
            dirs := ds }
        = (Except.ok
            { success := true
              message := "Stopped " ++ toString ids.length ++ " preview containers"
              stopped := ids },
           { containers := [], images := [], dirs := ds }))
    ∧ (∀ line name ports status, splitOnStr line (Char.ofNat 9) = [name, ports, status] →
        (parsePreviewLine line).projectId = replaceFirst name "preview-" ""
        ∧ (parsePreviewLine line).containerName = name) := by
  refine ⟨createProjectPreview_names, stopPreview_ok_iff, replaceFirst_preview_prefix,
    containsSub_preview_prefix, ?_, parsePreviewLine_fields⟩
  intro ids ds
  have hfilter : (ids.map fun i => "preview-" ++ i).filter (fun n => containsSub n "preview-")
      = ids.map fun i => "preview-" ++ i := by
    apply List.filter_eq_self.mpr
    intro n hn
    obtain ⟨i, hi, rfl⟩ := List.mem_map.mp hn
    exact containsSub_preview_prefix i
  have hloop := stopAllLoop_map ds ids []
  simp only [List.nil_append] at hloop
  simp [stopAllPreviews, hfilter, hloop]

/-- Witness for C10: the concrete successful run env12 carries the prefixed
names, and a concrete listing row strips back to its id. -/
theorem claim10_preview_name_registry_witness :
    resC2.projectId = env12.uuid.take 8
    ∧ resC2.preview.containerName = "preview-" ++ env12.uuid.take 8
    ∧ (parsePreviewLine "preview-aa\t0.0.0.0:3001->80/tcp\tUp 5 minutes").projectId
      = replaceFirst "preview-aa" "preview-" "" := by
  have h1 := claim10_preview_name_registry.1 env12 worldEmpty "facebook" "react" options12 resC2 rfl
  have h6 := claim10_preview_name_registry.2.2.2.2.2
    "preview-aa\t0.0.0.0:3001->80/tcp\tUp 5 minutes"
    "preview-aa" "0.0.0.0:3001->80/tcp" "Up 5 minutes" rfl
  exact ⟨h1.1, h1.2.1, h6.1⟩


end CodePreview
